import Mathlib

/-!
Verification of the linkedin-positive-toxicity repository.

This file shallowly embeds the parts of `linkedin_post_scraper.py` and
`analyze_post_playwright.py` that the claims concern: the pure extraction
helpers (`extract_hashtags`, `remove_duplicated_text`), the checkpoint store
(`save_checkpoint`, `load_checkpoint`), the persistence writer
(`save_posts_to_db` / `post_exists_in_db`), the scroll-extract loop of
`scrape_linkedin_posts`, the interrupt `signal_handler`, the multi-query
driver's checkpoint-write trace, and the analysis loop's severity parsing and
write-back gating.

Strings are modelled as `List Char` restricted to the ASCII behaviour of the
Python string operations involved (`strip`, `lower`, `split`, `isdigit`,
`startswith`, substring containment).
-/

namespace LPT

/-- Python strings, modelled as lists of characters. -/
abbrev PyStr := List Char

/-- Whitespace characters removed by Python `str.strip()` (ASCII range:
space, tab, newline, carriage return, vertical tab, form feed). -/
def isWs (c : Char) : Bool :=
  c == ' ' || c == '\t' || c == '\n' || c == '\r' || c == Char.ofNat 11 || c == Char.ofNat 12

/-- Python `str.strip()`: drop leading and trailing whitespace. -/
def pyStrip (l : PyStr) : PyStr :=
  ((l.dropWhile isWs).reverse.dropWhile isWs).reverse

/-- Python `str.lower()` on ASCII text. -/
def lowerL (l : PyStr) : PyStr := l.map Char.toLower

/-- Python `s.split(c)` for a single-character separator: splits at every
occurrence, keeping empty fields; the empty string yields `[""]`. -/
def splitOnChar (c : Char) : PyStr → List PyStr
  | [] => [[]]
  | a :: as =>
    let r := splitOnChar c as
    if a = c then [] :: r
    else
      match r with
      | [] => [[a]]
      | h :: t => (a :: h) :: t

/-- Whether a list starts with the given pattern (Python `startswith`). -/
def startsW : PyStr → PyStr → Bool
  | [], _ => true
  | _ :: _, [] => false
  | a :: as, b :: bs => a == b && startsW as bs

/-- Python substring containment `pat in s` (for non-empty patterns). -/
def hasSub (pat s : PyStr) : Bool :=
  s.tails.any (fun t => startsW pat t)

/-- Python `str.isdigit()` on ASCII text: non-empty and all decimal digits. -/
def pyIsDigit (l : PyStr) : Bool :=
  !l.isEmpty && l.all Char.isDigit

/-- Python `s.replace('.', '', 1)`: remove the first dot, if any. -/
def removeFirstDot : PyStr → PyStr
  | [] => []
  | c :: rest => if c = '.' then rest else c :: removeFirstDot rest

/-- Value of a decimal digit string. -/
def digitsToNat (l : PyStr) : Nat :=
  l.foldl (fun a c => 10 * a + (c.toNat - 48)) 0

/-! ## Extraction layer (src/linkedin_post_scraper.py) -/

/-- Source: `remove_duplicated_text` (linkedin_post_scraper.py lines 109-134).
`if not text: return None`; strip; if the first half of the stripped text
equals the second half (and the half is non-empty) return the stripped first
half; else if the first two newline-separated lines agree after stripping,
return the stripped first line; else return the stripped text. -/
def remove_duplicated_text (text : PyStr) : Option PyStr :=
  if text.isEmpty then none
  else
    let t := pyStrip text
    let half := t.length / 2
    if 0 < half ∧ t.take half = t.drop half then some (pyStrip (t.take half))
    else
      match splitOnChar '\n' t with
      | l0 :: l1 :: _ => if pyStrip l0 = pyStrip l1 then some (pyStrip l0) else some t
      | _ => some t

/-- Word characters of the Python regex `\w` on ASCII text. -/
def isWordCh (c : Char) : Bool := c.isAlphanum || c == '_'

/-- Source: the scan performed by `re.findall(r'#\w+', text)`
(linkedin_post_scraper.py line 104): scan left to right; at a `'#'` followed
by at least one word character, emit `'#'` plus the greedy run of word
characters and resume after it; otherwise advance one character. The fuel
argument (any value at least the input length; `findTags` passes the length)
makes the scan structurally recursive. -/
def findTagsAux : Nat → PyStr → List PyStr
  | 0, _ => []
  | _ + 1, [] => []
  | fuel + 1, c :: rest =>
    if c = '#' then
      let w := rest.takeWhile isWordCh
      if w.isEmpty then findTagsAux fuel rest
      else ('#' :: w) :: findTagsAux fuel (rest.drop w.length)
    else findTagsAux fuel rest

/-- The `re.findall(r'#\w+', text)` scan over a whole string. -/
def findTags (l : PyStr) : List PyStr :=
  findTagsAux l.length l

/-- Source: `extract_hashtags` (linkedin_post_scraper.py lines 99-107):
`if not text: return None`; find all `#\w+` matches; `', '.join` them, or
None when there are none. -/
def extract_hashtags (text : PyStr) : Option PyStr :=
  if text.isEmpty then none
  else
    let tags := findTags text
    if tags.isEmpty then none
    else some (List.intercalate ((", ").toList) tags)

/-- Declarative counterpart for claim C9: the maximal `#`-then-word-characters
substrings of `l`, listed in order of their starting position. Position `i`
contributes a token exactly when the character at `i` is `'#'` and is followed
by at least one word character; the token extends over the longest word run,
so it is maximal to the right, and it cannot be extended to the left because
a token's first character must be `'#'` while all later ones are word
characters (and `'#'` is not a word character). -/
def specTagAt (l : PyStr) (i : Nat) : Option PyStr :=
  match l.drop i with
  | [] => none
  | c :: rest =>
    if c = '#' then
      let w := rest.takeWhile isWordCh
      if w.isEmpty then none else some ('#' :: w)
    else none

/-- All maximal hashtag substrings of `l`, in order of first appearance,
duplicates kept. -/
def specTags (l : PyStr) : List PyStr :=
  (List.range l.length).filterMap (specTagAt l)

/-! ## Checkpoint store (src/linkedin_post_scraper.py lines 199-251) -/

/-- The checkpoint snapshot: the three fields the program reads back
(`timestamp` and `username` are informational only and never read). -/
structure Ckpt where
  completed_queries : List PyStr
  current_query : Option PyStr
  posts_collected : Nat
deriving DecidableEq

/-- Source: `load_checkpoint` (lines 223-251) over an abstract file system:
`fs = none` models an absent checkpoint file; `parse` abstracts
`json.load` plus the `.get` field extraction, returning `none` whenever the
`try` block would raise (the `except` at lines 249-251 catches every
exception and returns the defaults, so the embedding is a total function). -/
def load_checkpoint (parse : PyStr → Option Ckpt) (fs : Option PyStr) :
    List PyStr × Option PyStr × Nat :=
  match fs with
  | none => ([], none, 0)
  | some content =>
    match parse content with
    | none => ([], none, 0)
    | some ck => (ck.completed_queries, ck.current_query, ck.posts_collected)

/-- File-system operations performed on the checkpoint path by
`save_checkpoint` (lines 216-218): `open(CHECKPOINT_FILE, 'w')` truncates the
file in place, then `json.dump` writes the serialized snapshot. -/
inductive FsEvent where
  | truncate
  | writeAll (content : PyStr)
deriving DecidableEq

/-- Source: the event trace of `save_checkpoint` on the checkpoint path:
open-with-truncation, then write the serialized snapshot. (Modelling the
write as a single event is conservative: even at this coarse granularity the
trace is not an atomic replacement.) -/
def save_checkpoint_events (snapshot : PyStr) : List FsEvent :=
  [FsEvent.truncate, FsEvent.writeAll snapshot]

/-- Effect of one file-system event on the file contents at the path. -/
def applyEvent (_file : PyStr) : FsEvent → PyStr
  | FsEvent.truncate => []
  | FsEvent.writeAll c => c

/-- All contents visible at the checkpoint path over a trace of events,
starting from the old contents (what a concurrent reader can observe). -/
def fileStates (old : PyStr) (evs : List FsEvent) : List PyStr :=
  evs.scanl applyEvent old

/-- A trace atomically replaces `old` by `new` when every observable state of
the file is either the complete old snapshot or the complete new one. -/
def atomicReplace (old new : PyStr) (evs : List FsEvent) : Prop :=
  ∀ st ∈ fileStates old evs, st = old ∨ st = new

/-! ## Persistence layer (src/linkedin_post_scraper.py lines 81-97, 253-323) -/

/-- A stored row of the `linkedin_posts` table; only the columns the claims
concern. `post_id` is modelled as a string, which is what the scraper always
supplies (a URN-derived id or a generated UUID). -/
structure DbRow where
  post_id : PyStr
  text : PyStr
deriving DecidableEq

/-- A post record handed to the persistence writer. -/
structure PostRec where
  post_id : PyStr
  text : PyStr
deriving DecidableEq

/-- Source: `post_exists_in_db` (lines 81-97): `if not post_id: return False`
(empty string is falsy), else SELECT by primary key. -/
def post_exists_in_db (db : List DbRow) (pid : PyStr) : Bool :=
  if pid.isEmpty then false
  else db.any (fun r => r.post_id == pid)

/-- Outcome of the `INSERT` attempt (lines 297-319): `none` models a raised
exception — `sqlite3.IntegrityError` on a primary-key collision, or any other
storage fault, injected through the `faulty` flag. Both are caught by the
source and turned into a skip. -/
def tryInsert (db : List DbRow) (p : PostRec) (faulty : Bool) : Option (List DbRow) :=
  if db.any (fun r => r.post_id == p.post_id) then none
  else if faulty then none
  else some (db ++ [⟨p.post_id, p.text⟩])

/-- Source: `save_posts_to_db` (lines 253-323). For each record: skip when
`post_exists_in_db` confirms the identity present; otherwise attempt the
insert, counting a raised `IntegrityError` or any other exception as a skip
(lines 314-319) and continuing with the next record. Returns the new table
contents together with `(saved_count, skipped_count)`; the source returns
`saved_count` and prints both. The `faults` list injects "other storage
fault" exceptions per record (padded with `false`). -/
def save_posts_to_db : List DbRow → List PostRec → List Bool → List DbRow × Nat × Nat
  | db, [], _ => (db, 0, 0)
  | db, p :: ps, fs =>
    if post_exists_in_db db p.post_id then
      let r := save_posts_to_db db ps fs.tail
      (r.1, r.2.1, r.2.2 + 1)
    else
      match tryInsert db p (fs.headD false) with
      | some db2 =>
        let r := save_posts_to_db db2 ps fs.tail
        (r.1, r.2.1 + 1, r.2.2)
      | none =>
        let r := save_posts_to_db db ps fs.tail
        (r.1, r.2.1, r.2.2 + 1)

/-! ## Interrupt handling (src/linkedin_post_scraper.py lines 18-48) -/

/-- The observable process state when an interrupt signal arrives: the
checkpoint file (parsed; `none` = absent or unparsable, per the bare `except`
at lines 36-37), the database table, and the in-memory pending batch
(`current_batch`). -/
structure IngestState where
  fsCkpt : Option Ckpt
  db : List DbRow
  pending : List PostRec
deriving DecidableEq

/-- Source: `signal_handler` (lines 18-44). On SIGINT/SIGTERM it re-reads the
existing checkpoint file (defaults on absence or parse failure), re-saves a
checkpoint with exactly those values, and calls `sys.exit(0)`. `SystemExit`
is not an `Exception`, so it propagates past the `except Exception` at line
694; the pending-batch flush at lines 609-614 can never run, because
`IS_EXITING` is only ever set by this handler, which exits before returning.
Hence the database and the pending batch are untouched. -/
def signal_handler (s : IngestState) : IngestState :=
  let prior : Ckpt :=
    match s.fsCkpt with
    | some ck => ck
    | none => ⟨[], none, 0⟩
  { s with fsCkpt := some ⟨prior.completed_queries, prior.current_query, prior.posts_collected⟩ }

/-! ## Multi-query driver checkpoint trace (src/linkedin_post_scraper.py,
`__main__`, lines 820-853, and the flush checkpoints at lines 631/669) -/

/-- Checkpoints written by `scrape_linkedin_posts` at each mid-query batch
flush: the source calls `save_checkpoint([], search_query, posts_collected)`
(lines 631 and 669), passing a literal empty list for the completed
queries. -/
def queryFlushCkpts (q : PyStr) (flushCounts : List Nat) : List Ckpt :=
  flushCounts.map (fun n => ⟨[], some q, n⟩)

/-- Source: the sequence of checkpoint snapshots written by the `__main__`
multi-query loop (lines 820-846), given for each query the cumulative
`posts_collected` value at each of its mid-query batch flushes: before each
query `save_checkpoint(completed_queries, query, 0)` (line 830), then the
flush checkpoints, then `save_checkpoint(completed_queries + [query], None,
0)` after the query completes (line 846). -/
def driverCkpts : List PyStr → List (PyStr × List Nat) → List Ckpt
  | _, [] => []
  | completed, (q, flushes) :: rest =>
    ⟨completed, some q, 0⟩ ::
      (queryFlushCkpts q flushes ++
        (⟨completed ++ [q], none, 0⟩ :: driverCkpts (completed ++ [q]) rest))

/-! ## Scroll-extract loop (src/linkedin_post_scraper.py lines 637-684) -/

/-- The loop state: `allP` = `len(all_posts)` (flushed batches kept in
memory), `batch` = `len(current_batch)`, `collected` = `posts_collected`
(includes `start_from`), `consecutive` = `consecutive_no_new_posts`,
`prevCount` = `previous_post_count`, `exiting` = `IS_EXITING`. -/
structure ScState where
  allP : Nat
  batch : Nat
  collected : Nat
  consecutive : Nat
  prevCount : Nat
  exiting : Bool
deriving DecidableEq

/-- One scroll-extract cycle's environment: whether the interrupt flag is
observed set at the in-cycle check (line 651), whether the scroll raises
(the `except` at lines 682-684), and how many new posts
`extract_visible_posts` returns. -/
structure Cycle where
  interrupted : Bool
  fault : Bool
  newPosts : Nat
deriving DecidableEq

/-- The `while` guard (line 641):
`(len(all_posts) + len(current_batch)) < max_posts and
consecutive_no_new_posts < 3 and not IS_EXITING`. -/
def guardHolds (maxPosts : Nat) (st : ScState) : Bool :=
  decide (st.allP + st.batch < maxPosts) && decide (st.consecutive < 3) && !st.exiting

/-- The loop's stop condition: the negation of the guard. -/
def stopCond (maxPosts : Nat) (st : ScState) : Prop :=
  maxPosts ≤ st.allP + st.batch ∨ 3 ≤ st.consecutive ∨ st.exiting = true

instance (maxPosts : Nat) (st : ScState) : Decidable (stopCond maxPosts st) := by
  unfold stopCond
  infer_instance

/-- Source: the body of one scroll-extract cycle (lines 642-684). An observed
interrupt breaks out (line 651-652: modelled by setting `exiting`, which
falsifies the guard). A scroll fault only increments the no-new-posts counter
(lines 682-684). Otherwise: extend the batch and `posts_collected` (lines
658-659), flush when the batch reaches `batch_size` (lines 662-669; flushing
moves the batch into `all_posts`, leaving `len(all_posts)+len(current_batch)`
unchanged), then compare the running total against `previous_post_count`
(lines 672-679). -/
def scrollStep (batchSize : Nat) (st : ScState) (c : Cycle) : ScState :=
  if c.interrupted then { st with exiting := true }
  else if c.fault then { st with consecutive := st.consecutive + 1 }
  else
    let b := st.batch + c.newPosts
    let a2 := if batchSize ≤ b then st.allP + b else st.allP
    let b2 := if batchSize ≤ b then 0 else b
    let total := a2 + b2
    { allP := a2
      batch := b2
      collected := st.collected + c.newPosts
      consecutive := if total = st.prevCount then st.consecutive + 1 else 0
      prevCount := total
      exiting := st.exiting }

/-- Source: the scroll-extract `while` loop (line 641), driven by a finite
script of cycle environments; returns the final state together with the
number of cycles executed. The guard is re-checked before every cycle. -/
def scrollRun (maxPosts batchSize : Nat) : ScState → List Cycle → ScState × Nat
  | st, [] => (st, 0)
  | st, c :: cs =>
    if guardHolds maxPosts st then
      let r := scrollRun maxPosts batchSize (scrollStep batchSize st c) cs
      (r.1, r.2 + 1)
    else (st, 0)

/-! ## Severity parsing (src/analyze_post_playwright.py lines 147-250) -/

/-- The line marker searched for by the parser. -/
def sevMarker : PyStr := ("severity:").toList

/-- Source: `[line for line in response_text.split('\n') if
line.lower().startswith('severity:')]`, first element (lines 187-190). -/
def severityLine (resp : PyStr) : Option PyStr :=
  (splitOnChar '\n' resp).find? (fun ln => startsW sevMarker (lowerL ln))

/-- Source: `line.split(':')[1]` (line 190): the text between the first and
the second colon of the line (for a line that contains a colon). -/
def afterColon (line : PyStr) : PyStr :=
  match splitOnChar ':' line with
  | _ :: x :: _ => x
  | _ => []

/-- Source: the numeric test
`severity_text.isdigit() or severity_text.replace('.', '', 1).isdigit()`
(line 192). -/
def numeralB (t : PyStr) : Bool :=
  pyIsDigit t || pyIsDigit (removeFirstDot t)

/-- Value of `int(float(severity_text))` for a string passing `numeralB`:
the digits before the first dot (exact decimal semantics; this agrees with
Python for every numeral short enough for the double conversion to be exact
in the integer part, which covers all realistic model outputs). -/
def intPartVal (t : PyStr) : Nat :=
  digitsToNat (t.takeWhile (fun c => ¬ c = '.'))

/-- Rendering of a clamped severity code as a digit string. -/
def sevDigit (n : Nat) : PyStr :=
  if n = 0 then ("0").toList
  else if n = 1 then ("1").toList
  else if n = 2 then ("2").toList
  else ("3").toList

/-- Source: the severity extraction of `analyze_with_mistral` (lines
183-215). `none` is Python `None`: no line of the response starts
case-insensitively with `severity:`. Otherwise `severity_text` is
`split(':')[1].strip()`; a numeral is mapped through
`int(float(...))` and the `0/1/2/>=3` chain (lines 193-201); else the
keyword containment chain (lines 204-211); else `severity_text` itself
("Use as-is if can't parse", line 213). The bare `except` that yields
`"Unknown"` (lines 214-215) is unreachable for ASCII inputs whose numeral is
exactly representable, since the selected line always contains a colon. -/
def parse_severity (resp : PyStr) : Option PyStr :=
  match severityLine resp with
  | none => none
  | some line =>
    let severity_text := pyStrip (afterColon line)
    if numeralB severity_text then
      let n := intPartVal severity_text
      if n = 0 then some (("0").toList)
      else if n = 1 then some (("1").toList)
      else if n = 2 then some (("2").toList)
      else some (("3").toList)
    else
      let lowT := lowerL severity_text
      if hasSub (("non").toList) lowT || hasSub (("not").toList) lowT then
        some (("0").toList)
      else if hasSub (("mild").toList) lowT then some (("1").toList)
      else if hasSub (("moderate").toList) lowT then some (("2").toList)
      else if hasSub (("high").toList) lowT then some (("3").toList)
      else some severity_text

/-- The keyword table of the fuzzy match, in the order the source tests. -/
def kwTable : List (PyStr × PyStr) :=
  [(("non").toList, ("0").toList),
   (("not").toList, ("0").toList),
   (("mild").toList, ("1").toList),
   (("moderate").toList, ("2").toList),
   (("high").toList, ("3").toList)]

/-- Claim C2 as amended: the parser takes the first line beginning
case-insensitively with `severity:`; the examined text is the stripped
segment between the first and second colon of that line; a numeral is
clamped into 0..3 with every value at least 3 mapping to 3; otherwise the
first containment match in the keyword table decides; and when neither parse
succeeds the result is that segment as-is (not the literal "Unknown"). -/
def amendedSeverity (resp : PyStr) : Option PyStr :=
  match severityLine resp with
  | none => none
  | some line =>
    let seg := pyStrip (afterColon line)
    if numeralB seg then some (sevDigit (min (intPartVal seg) 3))
    else
      match kwTable.find? (fun kv => hasSub kv.1 (lowerL seg)) with
      | some kv => some kv.2
      | none => some seg

/-- Modelled from the claim C2's words, for refutation: the parser examines
the whole remainder of the first `severity:` line after the marker, and when
neither the numeric nor the keyword parse succeeds it returns the literal
marker "Unknown". -/
def claimSeverity (resp : PyStr) : Option PyStr :=
  match severityLine resp with
  | none => none
  | some line =>
    let rem := pyStrip (line.drop sevMarker.length)
    if numeralB rem then some (sevDigit (min (intPartVal rem) 3))
    else
      match kwTable.find? (fun kv => hasSub kv.1 (lowerL rem)) with
      | some kv => some kv.2
      | none => some (("Unknown").toList)

/-! ## Analysis driver (src/analyze_post_playwright.py lines 13-56, 252-332) -/

/-- A row of `linkedin_posts` as seen by the analysis loop. -/
structure ARow where
  post_id : PyStr
  text : PyStr
  severity : Option PyStr
  reasons : Option PyStr
deriving DecidableEq

/-- Python truthiness of an optional string: `None` and `''` are falsy. -/
def pyTruthy : Option PyStr → Bool
  | none => false
  | some s => !s.isEmpty

/-- Source: `get_unanalyzed_posts` (lines 13-38):
`SELECT post_id, text FROM linkedin_posts WHERE severity IS NULL OR severity
= '' LIMIT ?` — rows in storage order whose severity is NULL or the empty
string, truncated to the limit, projected to (post_id, text). -/
def get_unanalyzed_posts (db : List ARow) (limit : Nat) : List (PyStr × PyStr) :=
  ((db.filter (fun r => !pyTruthy r.severity)).take limit).map
    (fun r => (r.post_id, r.text))

/-- Source: `update_post_severity` (lines 40-56): unconditional UPDATE of
severity and reasons on every row matching the post id. -/
def update_post_severity (db : List ARow) (pid : PyStr)
    (sev : Option PyStr) (reas : Option PyStr) : List ARow :=
  db.map (fun r => if r.post_id == pid then { r with severity := sev, reasons := reas } else r)

/-- Source: `analyze_with_mistral` (lines 147-250), severity component.
`gen` abstracts `generate_response`: `Except.error` models a raised
exception, mapped to `(None, ..)` by the handler at lines 248-250; on a
response text, the severity is parsed as in `parse_severity`. (The reasons
component is not modelled; no claim concerns it.) -/
def analyze_with_mistral (gen : Except PyStr PyStr) : Option PyStr × PyStr :=
  match gen with
  | Except.error e => (none, ("Exception: ").toList ++ e)
  | Except.ok resp => (parse_severity resp, resp)

/-- Source: the per-post body of `analyze_posts_with_mistral` (lines
316-322): `if severity:` — the write-back runs only when the parsed severity
is truthy; otherwise the row is left untouched. -/
def processOne (db : List ARow) (pid : PyStr)
    (sev : Option PyStr) (reas : Option PyStr) : List ARow :=
  if pyTruthy sev then update_post_severity db pid sev reas else db

lemma specTagAt_succ (c : Char) (l : PyStr) (i : Nat) :
    specTagAt (c :: l) (i + 1) = specTagAt l i := rfl

lemma specTags_cons (c : Char) (l : PyStr) :
    specTags (c :: l) =
      (match specTagAt (c :: l) 0 with
        | none => specTags l
        | some t => t :: specTags l) := by
  unfold specTags
  rw [List.length_cons, List.range_succ_eq_map, List.filterMap_cons, List.filterMap_map]
  have h : specTagAt (c :: l) ∘ Nat.succ = specTagAt l := by
    funext i
    exact specTagAt_succ c l i
  rw [h]
  cases specTagAt (c :: l) 0 <;> rfl

lemma specTags_word_cons {a : Char} (ha : isWordCh a = true) (l : PyStr) :
    specTags (a :: l) = specTags l := by
  rw [specTags_cons]
  have hne : ¬ a = '#' := by
    intro h
    rw [h] at ha
    simp [isWordCh] at ha
  simp [specTagAt, hne]

lemma specTags_wordrun_append {w : PyStr} (hw : ∀ c ∈ w, isWordCh c = true) (t : PyStr) :
    specTags (w ++ t) = specTags t := by
  induction w with
  | nil => rfl
  | cons a as ih =>
    rw [List.cons_append, specTags_word_cons (hw a (by simp)),
      ih (fun c hc => hw c (by simp [hc]))]

lemma findTagsAux_eq_specTags :
    ∀ (fuel : Nat) (l : PyStr), l.length ≤ fuel → findTagsAux fuel l = specTags l := by
  intro fuel
  induction fuel with
  | zero =>
    intro l h
    have hl : l = [] := List.length_eq_zero.mp (Nat.le_zero.mp h)
    subst hl
    simp [findTagsAux, specTags]
  | succ n ih =>
    intro l h
    rcases l with _ | ⟨c, rest⟩
    · simp [findTagsAux, specTags]
    · have hrest : rest.length ≤ n := by simpa using h
      by_cases hc : c = '#'
      · subst hc
        by_cases hw : List.takeWhile isWordCh rest = []
        · have h1 : findTagsAux (n + 1) ('#' :: rest) = findTagsAux n rest := by
            rw [findTagsAux]
            simp [hw]
          have h0 : specTagAt ('#' :: rest) 0 = none := by
            simp [specTagAt, hw]
          rw [h1, ih rest hrest, specTags_cons, h0]
        · have h1 : findTagsAux (n + 1) ('#' :: rest) =
              ('#' :: rest.takeWhile isWordCh) ::
                findTagsAux n (rest.drop (List.takeWhile isWordCh rest).length) := by
            rw [findTagsAux]
            simp [hw]
          have hdroplen : (rest.drop (List.takeWhile isWordCh rest).length).length ≤ n := by
            rw [List.length_drop]
            omega
          have hsplit : rest = rest.takeWhile isWordCh ++ rest.dropWhile isWordCh :=
            (List.takeWhile_append_dropWhile isWordCh rest).symm
          have hdrop := List.drop_left (List.takeWhile isWordCh rest) (List.dropWhile isWordCh rest)
          rw [List.takeWhile_append_dropWhile] at hdrop
          have h0 : specTagAt ('#' :: rest) 0 = some ('#' :: rest.takeWhile isWordCh) := by
            simp [specTagAt, hw]
          rw [h1, ih _ hdroplen, specTags_cons, h0]
          have htail : specTags rest = specTags (rest.dropWhile isWordCh) := by
            conv_lhs => rw [hsplit]
            exact specTags_wordrun_append (fun c hc => List.mem_takeWhile_imp hc) _
          rw [htail, hdrop]
      · have h1 : findTagsAux (n + 1) (c :: rest) = findTagsAux n rest := by
          rw [findTagsAux]
          simp [hc]
        have h0 : specTagAt (c :: rest) 0 = none := by
          simp [specTagAt, hc]
        rw [h1, ih rest hrest, specTags_cons, h0]

lemma findTags_eq_specTags (l : PyStr) : findTags l = specTags l :=
  findTagsAux_eq_specTags l.length l (Nat.le_refl _)

/-- The claim C9's characterization of `extract_hashtags` in terms of the
maximal-substring specification `specTags`. -/
lemma extract_hashtags_eq_spec (l : PyStr) :
    extract_hashtags l =
      if (specTags l).isEmpty then none
      else some (List.intercalate ((", ").toList) (specTags l)) := by
  unfold extract_hashtags
  rw [findTags_eq_specTags]
  rcases l with _ | ⟨c, t⟩
  · rfl
  · simp [List.isEmpty]

/-! ## Lemmas about pyStrip, for claim C3 -/

lemma dropWhile_cons_self {p : Char → Bool} {c : Char} {t : PyStr}
    (h : List.dropWhile p (c :: t) = c :: t) : p c = false := by
  by_contra hc
  have hc' : p c = true := by
    cases hpc : p c
    · exact absurd hpc hc
    · rfl
  rw [List.dropWhile_cons_of_pos hc'] at h
  have hle := (List.dropWhile_suffix (l := t) p).length_le
  rw [h] at hle
  simp at hle

lemma pyStrip_parts {s : PyStr} (h : pyStrip s = s) :
    s.dropWhile isWs = s ∧ s.reverse.dropWhile isWs = s.reverse := by
  unfold pyStrip at h
  have hlen : ((s.dropWhile isWs).reverse.dropWhile isWs).length = s.length := by
    have := congrArg List.length h
    simpa using this
  have hlen1 : (s.dropWhile isWs).length = s.length := by
    have h1 := (List.dropWhile_suffix (l := s) isWs).length_le
    have h2 := (List.dropWhile_suffix (l := (s.dropWhile isWs).reverse) isWs).length_le
    rw [hlen] at h2
    simp at h2
    omega
  have ha : s.dropWhile isWs = s :=
    (List.dropWhile_suffix isWs).eq_of_length hlen1
  refine ⟨ha, ?_⟩
  rw [ha] at hlen
  exact (List.dropWhile_suffix isWs).eq_of_length (by rw [hlen]; simp)

lemma pyStrip_append_self {s : PyStr} (h1 : s ≠ []) (h2 : pyStrip s = s) :
    pyStrip (s ++ s) = s ++ s := by
  obtain ⟨hL, hR⟩ := pyStrip_parts h2
  rcases hs : s with _ | ⟨c, t⟩
  · exact absurd hs h1
  rw [hs] at hL hR
  have hc : isWs c = false := dropWhile_cons_self hL
  obtain ⟨c2, t2, hrev⟩ : ∃ c2 t2, (c :: t).reverse = c2 :: t2 := by
    rcases hJ : (c :: t).reverse with _ | ⟨x, xs⟩
    · have hcon : (c :: t).length = 0 := by
        rw [← List.length_reverse, hJ]
        rfl
      simp at hcon
    · exact ⟨x, xs, rfl⟩
  rw [hrev] at hR
  have hc2 : isWs c2 = false := dropWhile_cons_self hR
  unfold pyStrip
  have e1 : ((c :: t) ++ (c :: t)).dropWhile isWs = (c :: t) ++ (c :: t) := by
    rw [List.cons_append, List.dropWhile_cons_of_neg (by simp [hc])]
  rw [e1]
  have e2 : ((c :: t) ++ (c :: t)).reverse.dropWhile isWs = ((c :: t) ++ (c :: t)).reverse := by
    rw [List.reverse_append, hrev, List.cons_append,
      List.dropWhile_cons_of_neg (by simp [hc2])]
  rw [e2, List.reverse_reverse]

/-! ## Claim theorems -/

/-- C9: `extract_hashtags` finds every maximal substring consisting of `#`
followed by one or more word characters (the declarative `specTags`, in
order of first appearance, duplicates kept), joins them with `", "`, and
returns null when there is none; in particular
`extractHashtags("no tags here")` is null and
`extractHashtags("love #ai and #ML!")` is `"#ai, #ML"`. -/
theorem C9_extract_hashtags :
    (∀ l : PyStr, extract_hashtags l =
      if (specTags l).isEmpty then none
      else some (List.intercalate ((", ").toList) (specTags l))) ∧
    extract_hashtags (("no tags here").toList) = none ∧
    extract_hashtags (("love #ai and #ML!").toList) = some (("#ai, #ML").toList) :=
  ⟨extract_hashtags_eq_spec, rfl, rfl⟩

/-- C3 counterexample: `removeDuplicatedText(s + s) = s` fails as stated for
every string: for `s = ""` the result is null, and for `s = " a"` (leading
whitespace) the result is `"a a"`, not `" a"`, because the input is stripped
before the even-split test. -/
theorem C3_counterexample :
    remove_duplicated_text ((("").toList) ++ (("").toList)) = none ∧
    remove_duplicated_text (((" a").toList) ++ ((" a").toList)) = some (("a a").toList) ∧
    ¬ ((("a a").toList : PyStr) = ((" a").toList)) :=
  ⟨rfl, rfl, by decide⟩

/-- C3 as amended: for every non-empty string `s` with no leading or
trailing whitespace (`pyStrip s = s`), `removeDuplicatedText (s ++ s) = s`;
the empty string yields null and strings with edge whitespace may collapse
differently. -/
theorem C3_amended (s : PyStr) (h1 : s ≠ []) (h2 : pyStrip s = s) :
    remove_duplicated_text (s ++ s) = some s := by
  have hne : (s ++ s).isEmpty = false := by
    rcases s with _ | ⟨c, t⟩
    · exact absurd rfl h1
    · rfl
  have hstrip : pyStrip (s ++ s) = s ++ s := pyStrip_append_self h1 h2
  have hlen : (s ++ s).length / 2 = s.length := by
    rw [List.length_append]
    omega
  have hpos : 0 < s.length := List.length_pos.mpr h1
  unfold remove_duplicated_text
  rw [hne]
  simp only [Bool.false_eq_true, if_false]
  rw [hstrip, hlen, List.take_left, List.drop_left, if_pos ⟨hpos, rfl⟩, h2]

/-- Witness for the amended C3 at the concrete string "ab". -/
theorem C3_amended_witness :
    remove_duplicated_text ((("ab").toList) ++ (("ab").toList)) = some (("ab").toList) :=
  C3_amended (("ab").toList) (by decide) (by decide)

/-- C1: evaluation of the interrupt handler. From every state, the handler
leaves the database and the pending batch untouched (so a non-empty pending
batch is never flushed), and it rewrites the checkpoint file with exactly the
previously stored values; at the failing input (4 pending records,
stored `posts_collected = 10`) the final checkpoint still records 10, not
14, and the checkpoint file is not deleted. This refutes the flush-and-count
part of the claim while confirming the not-deleted part. -/
theorem C1_interrupt_drops_pending :
    (∀ s : IngestState,
      (signal_handler s).db = s.db ∧ (signal_handler s).pending = s.pending) ∧
    signal_handler
        ⟨some ⟨[], some (("test query").toList), 10⟩, [],
          [⟨("p1").toList, ("t1").toList⟩, ⟨("p2").toList, ("t2").toList⟩,
           ⟨("p3").toList, ("t3").toList⟩, ⟨("p4").toList, ("t4").toList⟩]⟩ =
      ⟨some ⟨[], some (("test query").toList), 10⟩, [],
        [⟨("p1").toList, ("t1").toList⟩, ⟨("p2").toList, ("t2").toList⟩,
         ⟨("p3").toList, ("t3").toList⟩, ⟨("p4").toList, ("t4").toList⟩]⟩ :=
  ⟨fun _ => ⟨rfl, rfl⟩, rfl⟩

/-- C4: evaluation of the multi-query driver's checkpoint-write trace on the
failing input: queries "q1" (no mid-query flush) then "q2" with one
mid-query flush at 10 posts. The checkpoint written at that flush is
`{completed_queries: [], current_query: "q2", posts_collected: 10}` — its
completed-queries list is empty even though "q1" has completed, because
`scrape_linkedin_posts` calls `save_checkpoint([], search_query,
posts_collected)` at lines 631/669. -/
theorem C4_flush_checkpoint_drops_completed :
    driverCkpts [] [((("q1").toList), []), ((("q2").toList), [10])] =
      [⟨[], some (("q1").toList), 0⟩,
       ⟨[("q1").toList], none, 0⟩,
       ⟨[("q1").toList], some (("q2").toList), 0⟩,
       ⟨[], some (("q2").toList), 10⟩,
       ⟨[("q1").toList, ("q2").toList], none, 0⟩] ∧
    ((⟨[], some (("q2").toList), 10⟩ : Ckpt).completed_queries = []) :=
  ⟨rfl, rfl⟩

/-- C6 counterexample: the checkpoint save trace (truncate in place, then
write) is not an atomic replacement: starting from old contents "x" and
writing snapshot "y", a concurrent reader can observe the empty truncated
file, which is neither the old nor the new snapshot. -/
theorem C6_counterexample :
    ¬ atomicReplace (("x").toList) (("y").toList)
        (save_checkpoint_events (("y").toList)) := by
  unfold atomicReplace fileStates save_checkpoint_events
  decide

/-- C6 as amended: `save_checkpoint` overwrites the checkpoint file in place
(open with truncation, then write); the final contents are the complete new
snapshot, but whenever the old and new snapshots are non-empty the trace is
not an atomic replacement, because the intermediate truncated (empty) state
is observable. -/
theorem C6_amended (old snap : PyStr) :
    (fileStates old (save_checkpoint_events snap)).getLast? = some snap ∧
    (old ≠ [] → snap ≠ [] →
      ¬ atomicReplace old snap (save_checkpoint_events snap)) := by
  constructor
  · rfl
  · intro h1 h2 hat
    have hmem : ([] : PyStr) ∈ fileStates old (save_checkpoint_events snap) := by
      simp [fileStates, save_checkpoint_events, List.scanl, applyEvent]
    have h3 := hat [] hmem
    rcases h3 with h3 | h3
    · exact h1 h3.symm
    · exact h2 h3.symm

/-- Witness for the amended C6 at concrete old contents "x" and snapshot
"y". -/
theorem C6_amended_witness :
    (fileStates (("x").toList) (save_checkpoint_events (("y").toList))).getLast?
        = some (("y").toList) ∧
    ¬ atomicReplace (("x").toList) (("y").toList)
        (save_checkpoint_events (("y").toList)) :=
  ⟨(C6_amended (("x").toList) (("y").toList)).1,
   (C6_amended (("x").toList) (("y").toList)).2 (by decide) (by decide)⟩

/-- C7: checkpoint load returns the empty defaults `([], none, 0)` when the
checkpoint file is absent, and likewise when the existing file fails to
parse; it is a total function (the source's `except` at lines 249-251 maps
every raised exception to the same defaults), so it never raises to its
caller. -/
theorem C7_load_defaults (parse : PyStr → Option Ckpt) (fs : Option PyStr) :
    (fs = none → load_checkpoint parse fs = ([], none, 0)) ∧
    (∀ c, fs = some c → parse c = none → load_checkpoint parse fs = ([], none, 0)) := by
  constructor
  · intro h
    subst h
    rfl
  · intro c h hp
    subst h
    simp [load_checkpoint, hp]

/-- Witness for C7: a missing file and an unparsable file both load as the
defaults. -/
theorem C7_load_defaults_witness :
    load_checkpoint (fun _ => none) none = ([], none, 0) ∧
    load_checkpoint (fun _ => none) (some (("not json").toList)) = ([], none, 0) :=
  ⟨(C7_load_defaults (fun _ => none) none).1 rfl,
   (C7_load_defaults (fun _ => none) (some (("not json").toList))).2
     (("not json").toList) rfl rfl⟩

/-- C10: when classification yields a null severity — the generation raised
(first conjunct) or the response has no line starting case-insensitively
with "severity:" (second conjunct) — the driver's `if severity:` gate skips
the write-back, so the table is unchanged; in particular the row's severity
stays NULL and the next fetch of unscored posts returns exactly the same
rows (third conjunct). -/
theorem C10_null_severity_skips_update :
    (∀ e : PyStr, (analyze_with_mistral (Except.error e)).1 = none) ∧
    (∀ resp : PyStr, severityLine resp = none →
      (analyze_with_mistral (Except.ok resp)).1 = none) ∧
    (∀ (db : List ARow) (pid : PyStr) (reas : Option PyStr) (limit : Nat),
      processOne db pid none reas = db ∧
      get_unanalyzed_posts (processOne db pid none reas) limit
        = get_unanalyzed_posts db limit) := by
  refine ⟨fun e => rfl, ?_, ?_⟩
  · intro resp h
    simp [analyze_with_mistral, parse_severity, h]
  · intro db pid reas limit
    have hdb : processOne db pid none reas = db := rfl
    exact ⟨hdb, by rw [hdb]⟩

/-- Witness for C10: a response with no severity line parses to a null
severity, and processing a one-row table with a null severity leaves it
unchanged and re-fetched. -/
theorem C10_null_severity_witness :
    (analyze_with_mistral (Except.ok (("no marker here").toList))).1 = none ∧
    processOne [⟨("p1").toList, ("t").toList, none, none⟩] (("p1").toList) none none
      = [⟨("p1").toList, ("t").toList, none, none⟩] ∧
    get_unanalyzed_posts
        (processOne [⟨("p1").toList, ("t").toList, none, none⟩] (("p1").toList) none none) 5
      = get_unanalyzed_posts [⟨("p1").toList, ("t").toList, none, none⟩] 5 :=
  ⟨C10_null_severity_skips_update.2.1 (("no marker here").toList) rfl,
   (C10_null_severity_skips_update.2.2
     [⟨("p1").toList, ("t").toList, none, none⟩] (("p1").toList) none 5).1,
   (C10_null_severity_skips_update.2.2
     [⟨("p1").toList, ("t").toList, none, none⟩] (("p1").toList) none 5).2⟩

lemma sevChain (n : Nat) :
    (if n = 0 then some (("0").toList)
     else if n = 1 then some (("1").toList)
     else if n = 2 then some (("2").toList)
     else some (("3").toList) : Option PyStr) = some (sevDigit (min n 3)) := by
  rcases n with _ | _ | _ | m
  · rfl
  · rfl
  · rfl
  · rw [if_neg (by omega), if_neg (by omega), if_neg (by omega)]
    have h3 : min (m + 1 + 1 + 1) 3 = 3 := by omega
    rw [h3]
    rfl

lemma kwChain (t : PyStr) :
    (if hasSub (("non").toList) (lowerL t) || hasSub (("not").toList) (lowerL t) then
        some (("0").toList)
      else if hasSub (("mild").toList) (lowerL t) then some (("1").toList)
      else if hasSub (("moderate").toList) (lowerL t) then some (("2").toList)
      else if hasSub (("high").toList) (lowerL t) then some (("3").toList)
      else some t : Option PyStr)
    = (match kwTable.find? (fun kv => hasSub kv.1 (lowerL t)) with
       | some kv => some kv.2
       | none => some t) := by
  cases h1 : hasSub (("non").toList) (lowerL t) <;>
    cases h2 : hasSub (("not").toList) (lowerL t) <;>
      cases h3 : hasSub (("mild").toList) (lowerL t) <;>
        cases h4 : hasSub (("moderate").toList) (lowerL t) <;>
          cases h5 : hasSub (("high").toList) (lowerL t) <;>
            simp only [kwTable, List.find?, h1, h2, h3, h4, h5] <;> rfl

/-- C2 counterexample: the claim's fallback tier is wrong on two points. For
the response "Severity: banana" (neither a numeral nor a keyword) the code
returns the remainder text "banana" as-is, not the literal marker "Unknown";
and for "Severity: 2: very high" the code examines only the text between the
first and second colon (yielding "2") while the claim's reading of the whole
remainder would fuzzy-match "high" and yield "3". -/
theorem C2_counterexample :
    parse_severity (("Severity: banana").toList) = some (("banana").toList) ∧
    claimSeverity (("Severity: banana").toList) = some (("Unknown").toList) ∧
    parse_severity (("Severity: 2: very high").toList) = some (("2").toList) ∧
    claimSeverity (("Severity: 2: very high").toList) = some (("3").toList) ∧
    ¬ ((("banana").toList : PyStr) = ("Unknown").toList) ∧
    ¬ ((("2").toList : PyStr) = ("3").toList) :=
  ⟨rfl, rfl, rfl, rfl, by decide, by decide⟩

/-- C2 as amended: the severity parser equals the amended specification
(first severity line; the stripped segment between the first and second
colon; numerals clamped into 0..3 with everything at least 3 mapping to "3";
else the keyword table; else that segment as-is), and the spec's example
"Severity: 7\nReasons:\n- a\n- b" parses to severity "3". -/
theorem C2_amended_severity :
    (∀ resp : PyStr, parse_severity resp = amendedSeverity resp) ∧
    parse_severity (("Severity: 7\nReasons:\n- a\n- b").toList) = some (("3").toList) := by
  constructor
  · intro resp
    unfold parse_severity amendedSeverity
    cases hsl : severityLine resp with
    | none => rfl
    | some line =>
      cases hnum : numeralB (pyStrip (afterColon line)) with
      | true =>
        simp only [hnum, if_true]
        exact sevChain _
      | false =>
        simp only [hnum, Bool.false_eq_true, if_false]
        exact kwChain _
  · rfl

lemma save_counts (posts : List PostRec) :
    ∀ (db : List DbRow) (faults : List Bool),
      (save_posts_to_db db posts faults).2.1 + (save_posts_to_db db posts faults).2.2
        = posts.length := by
  induction posts with
  | nil =>
    intro db faults
    rfl
  | cons p ps ih =>
    intro db faults
    rw [save_posts_to_db]
    cases he : post_exists_in_db db p.post_id with
    | true =>
      simp only [he, if_true]
      have := ih db faults.tail
      simp only [List.length_cons]
      omega
    | false =>
      simp only [he, Bool.false_eq_true, if_false]
      cases ht : tryInsert db p (faults.headD false) with
      | some db2 =>
        simp only [ht]
        have := ih db2 faults.tail
        simp only [List.length_cons]
        omega
      | none =>
        simp only [ht]
        have := ih db faults.tail
        simp only [List.length_cons]
        omega

lemma save_first {db : List DbRow} {p : PostRec}
    (hany : (db.any fun r => r.post_id == p.post_id) = false) :
    save_posts_to_db db [p] [false] = (db ++ [⟨p.post_id, p.text⟩], 1, 0) := by
  have he : post_exists_in_db db p.post_id = false := by
    unfold post_exists_in_db
    cases hpe : p.post_id.isEmpty <;> simp [hany]
  have ht : tryInsert db p false = some (db ++ [⟨p.post_id, p.text⟩]) := by
    unfold tryInsert
    simp [hany]
  simp [save_posts_to_db, he, ht]

lemma save_second {db : List DbRow} {p : PostRec} (f : Bool) :
    save_posts_to_db (db ++ [⟨p.post_id, p.text⟩]) [p] [f]
      = (db ++ [⟨p.post_id, p.text⟩], 0, 1) := by
  cases hpe : p.post_id.isEmpty with
  | true =>
    have he : post_exists_in_db (db ++ [⟨p.post_id, p.text⟩]) p.post_id = false := by
      unfold post_exists_in_db
      simp [hpe]
    have ht : tryInsert (db ++ [⟨p.post_id, p.text⟩]) p f = none := by
      unfold tryInsert
      have hdup : ((db ++ [DbRow.mk p.post_id p.text]).any fun r => r.post_id == p.post_id)
          = true := by
        simp [List.any_append]
      simp [hdup]
    simp [save_posts_to_db, he, ht]
  | false =>
    have he : post_exists_in_db (db ++ [⟨p.post_id, p.text⟩]) p.post_id = true := by
      unfold post_exists_in_db
      simp [hpe, List.any_append]
    simp [save_posts_to_db, he]

lemma save_fault {db : List DbRow} {p : PostRec}
    (hany : (db.any fun r => r.post_id == p.post_id) = false) :
    save_posts_to_db db [p] [true] = (db, 0, 1) := by
  have he : post_exists_in_db db p.post_id = false := by
    unfold post_exists_in_db
    cases hpe : p.post_id.isEmpty <;> simp [hany]
  have ht : tryInsert db p true = none := by
    unfold tryInsert
    simp [hany]
  simp [save_posts_to_db, he, ht]

/-- C5: the persistence writer saves or skips every record and never raises:
for every batch the saved and skipped counts sum to the number of records
(first conjunct — the writer is a total function, each record going to
exactly one of the two outcomes); a fresh record is Saved and appended, and
a second call with the same post id is Skipped — whether the pre-insert
existence check catches it (non-empty id) or the primary-key integrity error
does (empty id is falsy, so the check is bypassed) — with the stored rows
unchanged after the second call (second conjunct); and any other storage
fault on insert yields Skipped with the table unchanged (third conjunct). -/
theorem C5_upsert_or_skip :
    (∀ (db : List DbRow) (posts : List PostRec) (faults : List Bool),
      (save_posts_to_db db posts faults).2.1 + (save_posts_to_db db posts faults).2.2
        = posts.length) ∧
    (∀ (db : List DbRow) (p : PostRec),
      (db.any fun r => r.post_id == p.post_id) = false →
      save_posts_to_db db [p] [false] = (db ++ [⟨p.post_id, p.text⟩], 1, 0) ∧
      ∀ f : Bool,
        save_posts_to_db (db ++ [⟨p.post_id, p.text⟩]) [p] [f]
          = (db ++ [⟨p.post_id, p.text⟩], 0, 1)) ∧
    (∀ (db : List DbRow) (p : PostRec),
      (db.any fun r => r.post_id == p.post_id) = false →
      save_posts_to_db db [p] [true] = (db, 0, 1)) :=
  ⟨fun db posts faults => save_counts posts db faults,
   fun _db _p hany => ⟨save_first hany, fun f => save_second f⟩,
   fun _db _p hany => save_fault hany⟩

/-- Witness for C5 at concrete records: Saved then Skipped with the row kept
once; a faulted insert is Skipped; duplicate ids within one batch sum
saved+skipped to the batch length. -/
theorem C5_upsert_or_skip_witness :
    save_posts_to_db [] [⟨("id1").toList, ("hello").toList⟩] [false]
      = ([⟨("id1").toList, ("hello").toList⟩], 1, 0) ∧
    save_posts_to_db [⟨("id1").toList, ("hello").toList⟩]
        [⟨("id1").toList, ("hello").toList⟩] [false]
      = ([⟨("id1").toList, ("hello").toList⟩], 0, 1) ∧
    save_posts_to_db [] [⟨("id1").toList, ("hello").toList⟩] [true] = ([], 0, 1) ∧
    (save_posts_to_db [] [⟨("a").toList, ("x").toList⟩, ⟨("a").toList, ("y").toList⟩] []).2.1
      + (save_posts_to_db [] [⟨("a").toList, ("x").toList⟩, ⟨("a").toList, ("y").toList⟩] []).2.2
      = 2 :=
  ⟨(C5_upsert_or_skip.2.1 [] ⟨("id1").toList, ("hello").toList⟩ (by decide)).1,
   (C5_upsert_or_skip.2.1 [] ⟨("id1").toList, ("hello").toList⟩ (by decide)).2 false,
   C5_upsert_or_skip.2.2 [] ⟨("id1").toList, ("hello").toList⟩ (by decide),
   C5_upsert_or_skip.1 [] [⟨("a").toList, ("x").toList⟩, ⟨("a").toList, ("y").toList⟩] []⟩

lemma guard_false_iff (m : Nat) (st : ScState) :
    guardHolds m st = false ↔ stopCond m st := by
  cases hex : st.exiting
  · simp only [guardHolds, stopCond, hex, Bool.not_false, Bool.and_true,
      Bool.and_eq_false_iff, decide_eq_false_iff_not, not_lt]
    constructor
    · intro h
      rcases h with h | h
      · exact Or.inl h
      · exact Or.inr (Or.inl h)
    · intro h
      rcases h with h | h | h
      · exact Or.inl h
      · exact Or.inr h
      · exact absurd h (by simp [hex])
  · simp [guardHolds, stopCond, hex]

/-- C8: the scroll-extract loop stops exactly at the guard's negation.
First conjunct: from any state where a stop condition already holds —
the running total `len(all_posts) + len(current_batch)` has reached
`max_posts`, or three consecutive cycles added zero new posts, or an
interrupt is pending — the loop performs no further scroll-extract cycle.
Second conjunct: whenever the loop stops with script cycles remaining, a
stop condition holds at the final state, so it stops only for those
reasons. -/
theorem C8_termination_guard (maxPosts batchSize : Nat) (st : ScState) (cs : List Cycle) :
    (stopCond maxPosts st → scrollRun maxPosts batchSize st cs = (st, 0)) ∧
    ((scrollRun maxPosts batchSize st cs).2 < cs.length →
      stopCond maxPosts (scrollRun maxPosts batchSize st cs).1) := by
  constructor
  · intro hstop
    have hg : guardHolds maxPosts st = false := (guard_false_iff maxPosts st).mpr hstop
    cases cs with
    | nil => rfl
    | cons c cs2 =>
      rw [scrollRun]
      simp [hg]
  · induction cs generalizing st with
    | nil =>
      intro h
      simp [scrollRun] at h
    | cons c cs2 ih =>
      intro h
      cases hg : guardHolds maxPosts st with
      | false =>
        rw [scrollRun] at h ⊢
        simp only [hg, Bool.false_eq_true, if_false] at h ⊢
        exact (guard_false_iff maxPosts st).mp hg
      | true =>
        rw [scrollRun] at h ⊢
        simp only [hg, if_true, List.length_cons] at h ⊢
        exact ih (scrollStep batchSize st c)
          (by omega)

/-- Witness for C8: a state whose total already reached `max_posts = 5`
performs zero further cycles, and a run stopping with script remaining ends
in a state satisfying the stop condition. -/
theorem C8_termination_guard_witness :
    scrollRun 5 10 ⟨5, 0, 5, 0, 5, false⟩ [⟨false, false, 2⟩]
      = (⟨5, 0, 5, 0, 5, false⟩, 0) ∧
    stopCond 5 (scrollRun 5 10 ⟨0, 0, 0, 3, 0, false⟩ [⟨false, false, 2⟩]).1 :=
  ⟨(C8_termination_guard 5 10 ⟨5, 0, 5, 0, 5, false⟩ [⟨false, false, 2⟩]).1
      (by decide),
   (C8_termination_guard 5 10 ⟨0, 0, 0, 3, 0, false⟩ [⟨false, false, 2⟩]).2
      (by decide)⟩

end LPT
